import Mathlib

/-
Verification of the gobotlite IRC bot message pipeline.

Go strings are modelled as lists of runes (Lean Char).  The byte-level
operations of the source (strings.HasPrefix with an ASCII pattern,
len(s) > 1 guarded by an ASCII first byte, s[1:] after an ASCII first
byte) coincide with the rune-level operations used here on every input
reaching them, because the guarding first character is ASCII.
-/

/-- Model of Go unicode.IsSpace: the Unicode White_Space code points. -/
def goIsSpace (c : Char) : Bool :=
  let n := c.toNat
  decide ((0x09 ≤ n ∧ n ≤ 0x0D) ∨ n = 0x20 ∨ n = 0x85 ∨ n = 0xA0 ∨
    n = 0x1680 ∨ (0x2000 ≤ n ∧ n ≤ 0x200A) ∨ n = 0x2028 ∨ n = 0x2029 ∨
    n = 0x202F ∨ n = 0x205F ∨ n = 0x3000)

/-- Accumulator pass behind `goFields`: split around runs of white space,
keeping the rune accumulator of the word currently being read. -/
def fieldsAux : List Char → List Char → List (List Char)
  | [], acc => if acc.isEmpty then [] else [acc.reverse]
  | c :: cs, acc =>
    if goIsSpace c then
      if acc.isEmpty then fieldsAux cs [] else acc.reverse :: fieldsAux cs []
    else
      fieldsAux cs (c :: acc)

/-- Model of Go strings.Fields: the maximal runs of non-white-space runes. -/
def goFields (s : List Char) : List (List Char) :=
  fieldsAux s []

/-- Model of Go strings.Join with separator " ". -/
def goJoin : List (List Char) → List Char
  | [] => []
  | [x] => x
  | x :: y :: xs => x ++ ' ' :: goJoin (y :: xs)

/-- Result of net/url.Parse as far as the bot inspects it: the Scheme and
Host components and the String() rendering passed on to handleURL. -/
structure ParsedURL where
  scheme : List Char
  host : List Char
  render : List Char
deriving DecidableEq

/-- Modelled from the standard library: net/url.Parse restricted to the
shapes the bot feeds it, for use in concrete examples only.  A word with a
"://" separator parses into the text before it (Scheme) and the authority
up to the next '/', '?' or '#' (Host); String() returns the input
unchanged.  A word without "://" parses as a relative reference with empty
Scheme and Host.  The theorems below quantify over an arbitrary parse
function, so none of them depends on this model. -/
def urlParseSpec (w : List Char) : Option ParsedURL :=
  match splitSchemeAux w [] with
  | none => some ⟨[], [], w⟩
  | some (scheme, rest) =>
      some ⟨scheme, rest.takeWhile (fun c => !(c == '/' || c == '?' || c == '#')), w⟩
where
  /-- Looks for the first "://" in the word, returning the text before it
  and the text after it. -/
  splitSchemeAux : List Char → List Char → Option (List Char × List Char)
    | ':' :: '/' :: '/' :: rest, acc => some (acc.reverse, rest)
    | c :: cs, acc => splitSchemeAux cs (c :: acc)
    | [], _ => none

/-- Outcome of the PRIVMSG callback (src part_002 lines 188 to 236) for one
incoming line: return with no dispatch, a handleCommand dispatch carrying
the text after the command marker, or the list of handleURL dispatches made
by the word scan, in order. -/
inductive Classification where
  | ignored : Classification
  | command : List Char → Classification
  | links : List (List Char) → Classification
deriving DecidableEq

/-- The URL scan loop of the PRIVMSG callback (src part_002 lines 216 to
236): for each word in order, skip it unless it begins with "http"; parse
it; on a parse error only log; if Scheme and Host are both non-empty,
dispatch handleURL with the rendered URL unless the full line text begins
with '*' (the relay-artifact guard, which only logs). -/
def scanLinks (parse : List Char → Option ParsedURL) (text : List Char)
    (words : List (List Char)) : List (List Char) :=
  words.filterMap (scanWord parse text)
where
  /-- One iteration of the loop: the dispatch the given word produces. -/
  scanWord (parse : List Char → Option ParsedURL) (text : List Char)
      (word : List Char) : Option (List Char) :=
    if !("http".toList.isPrefixOf word) then none
    else
      match parse word with
      | none => none
      | some u =>
        if !u.scheme.isEmpty && !u.host.isEmpty then
          if text.take 1 = ['*'] then none
          else some u.render
        else none

/-- The PRIVMSG callback dispatch decision (src part_002 lines 188 to 236):
a line from nick "Sinkko" is dropped; a line with no words is dropped; a
line whose text begins with '.' and has length > 1 dispatches handleCommand
with the text after the marker and returns; otherwise the word scan runs. -/
def classify (parse : List Char → Option ParsedURL) (nick : String)
    (text : List Char) : Classification :=
  if nick = "Sinkko" then .ignored
  else
    let words := goFields text
    if words.isEmpty then .ignored
    else if text.take 1 = ['.'] ∧ 1 < text.length then .command (text.drop 1)
    else .links (scanLinks parse text words)

/-- splitCommandString (src part_003 lines 548 to 555).  Go evaluates
fields[:1] in both branches; when fields is empty that slice expression
panics (slice bound out of range on capacity 0), modelled as none. -/
def splitCommandString (commandStr : List Char) :
    Option (List (List Char) × List (List Char)) :=
  let fields := goFields commandStr
  if 1 < fields.length then some (fields.take 1, fields.drop 1)
  else if fields.isEmpty then none
  else some (fields.take 1, [])

/-- Outcome of the input-processing half of handleCommand: early error
return on the empty command string, runtime panic from splitCommandString,
or the Command and Args payload fields it goes on to send. -/
inductive CommandOutcome where
  | emptyError : CommandOutcome
  | panic : CommandOutcome
  | payload : List Char → List Char → CommandOutcome
deriving DecidableEq

/-- handleCommand up to payload construction (src part_003 lines 517 to
533): reject the empty command string, split, then join the command and
argument fields with single spaces. -/
def handleCommandPayload (commandStr : List Char) : CommandOutcome :=
  if commandStr.isEmpty then .emptyError
  else
    match splitCommandString commandStr with
    | none => .panic
    | some (command, args) => .payload (goJoin command) (goJoin args)

/-- The decoded body of a Lambda command gateway response
(src part_003 lines 444 to 447). -/
structure CommandResponse where
  result : String
  errorMessage : String
deriving DecidableEq

/-- The decoded body of a Lambda title gateway response
(src part_000 lines 20 to 23). -/
structure TitleResponse where
  title : String
  errorMessage : String
deriving DecidableEq

/-- The response-resolution step of fetchLambdaCommand (src part_003 lines
506 to 513): a non-empty errorMessage becomes an error carrying that
message, otherwise the Result field is returned.  The transport steps
before it (marshalling, HTTP, decoding) fail before any response body
exists and are outside this function. -/
def fetchLambdaCommand (response : CommandResponse) : Except String String :=
  if response.errorMessage ≠ "" then .error response.errorMessage
  else .ok response.result

/-- The response-resolution step of fetchLambdaTitle (src part_000 lines
61 to 66): a non-empty errorMessage becomes an error carrying that
message, otherwise the Title field is returned. -/
def fetchLambdaTitle (response : TitleResponse) : Except String String :=
  if response.errorMessage ≠ "" then .error response.errorMessage
  else .ok response.title

/-- The outbound side of handleCommand (src part_003 lines 534 to 545): an
error from the gateway is returned without a send; a non-empty response is
sent to the originating channel; an empty response sends nothing. -/
def handleCommandSend (channel : String) (fetched : Except String String) :
    Option (String × String) :=
  match fetched with
  | .error _ => none
  | .ok response => if response ≠ "" then some (channel, response) else none

/-- The outbound side of handleURL (src part_000 lines 76 to 84): an error
from the gateway is logged without a send; a non-empty title sends
"Title: " prepended to it to the originating channel; an empty title sends
nothing. -/
def handleURLSend (channel : String) (fetched : Except String String) :
    Option (String × String) :=
  match fetched with
  | .error _ => none
  | .ok title => if title ≠ "" then some (channel, "Title: " ++ title) else none

/-- The 433 nickname-collision callback (src part_002 lines 152 to 155):
it re-registers as the configured nickname with "_" appended, ignoring the
nickname currently attempted on the connection. -/
def handle433 (configNickname : String) (_currentNick : String) : String :=
  configNickname ++ "_"

/-- One update of the backoff interval in connectWithRetry (src part_002
lines 73 to 91), in seconds: double it, then clamp to 300 (five minutes). -/
def backoffStep (b : Nat) : Nat :=
  let d := b * 2
  if 300 < d then 300 else d

/-- connectWithRetry (src part_002 lines 73 to 91) over an abstract
sequence of connect-attempt results (true means the attempt succeeds).
The function returns the list of sleep intervals performed before the
first successful attempt; its only return in the source is the nil error
on success, so success is the only constructor carrying a result and
running out of fuel (none) models a run that has not yet returned. -/
def connectWithRetry (connect : Nat → Bool) :
    Nat → Nat → Nat → Option (List Nat)
  | 0, _, _ => none
  | fuel + 1, attempt, backoff =>
    if connect attempt then some []
    else
      match connectWithRetry connect fuel (attempt + 1) (backoffStep backoff) with
      | none => none
      | some sleeps => some (backoff :: sleeps)

/-- The sequence of backoff values produced from a starting interval. -/
def backoffSeq (b : Nat) : Nat → List Nat
  | 0 => []
  | k + 1 => b :: backoffSeq (backoffStep b) k

/-- The words of the line that the URL scan dispatches: beginning with
"http" and parsing with non-empty Scheme and Host. -/
def qualifiesLink (parse : List Char → Option ParsedURL) (word : List Char) :
    Bool :=
  "http".toList.isPrefixOf word &&
    match parse word with
    | none => false
    | some u => !u.scheme.isEmpty && !u.host.isEmpty

/-- The URL string a dispatched word contributes: the String() rendering of
its parse. -/
def linkRender (parse : List Char → Option ParsedURL) (word : List Char) :
    List Char :=
  match parse word with
  | none => []
  | some u => u.render

/-- The handleURL dispatches a classification produces. -/
def linkDispatches : Classification → List (List Char)
  | .links l => l
  | _ => []

/-- A string of white space only splits into no fields. -/
theorem goFields_all_space (s : List Char) (h : ∀ c ∈ s, goIsSpace c = true) :
    goFields s = [] := by
  unfold goFields
  induction s with
  | nil => rfl
  | cons c cs ih =>
    have hc : goIsSpace c = true := h c (List.mem_cons_self c cs)
    simp only [fieldsAux, hc, if_true, List.isEmpty_nil, if_pos]
    exact ih fun d hd => h d (List.mem_cons_of_mem c hd)

/-- With a word in progress, the field split is non-empty. -/
theorem fieldsAux_ne_nil (s : List Char) :
    ∀ acc : List Char, acc ≠ [] → fieldsAux s acc ≠ [] := by
  induction s with
  | nil =>
    intro acc hacc
    simp [fieldsAux, List.isEmpty_iff, hacc]
  | cons c cs ih =>
    intro acc hacc
    by_cases hc : goIsSpace c
    · simp only [fieldsAux, hc, if_true, List.isEmpty_iff, if_neg hacc]
      exact List.cons_ne_nil _ _
    · simp only [fieldsAux, hc, if_false]
      exact ih (c :: acc) (List.cons_ne_nil c acc)

/-- A string beginning with a non-white-space rune has at least one field. -/
theorem goFields_cons_ne_nil (c : Char) (cs : List Char)
    (hc : goIsSpace c = false) : goFields (c :: cs) ≠ [] := by
  unfold goFields fieldsAux
  rw [hc]
  exact fieldsAux_ne_nil cs [c] (List.cons_ne_nil c [])

/-- On a line whose text begins with '*', no word produces a dispatch. -/
theorem scanWord_star (parse : List Char → Option ParsedURL)
    (text : List Char) (word : List Char)
    (h : text.take 1 = ['*']) : scanLinks.scanWord parse text word = none := by
  unfold scanLinks.scanWord
  cases hp : "http".toList.isPrefixOf word with
  | false => rfl
  | true =>
    cases hu : parse word with
    | none => rfl
    | some u =>
      show (if (!u.scheme.isEmpty && !u.host.isEmpty) = true
          then (if text.take 1 = ['*'] then none else some u.render)
          else none) = (none : Option (List Char))
      rw [if_pos h, ite_self]

/-- On a line whose text begins with '*', the URL scan dispatches nothing. -/
theorem scanLinks_star (parse : List Char → Option ParsedURL)
    (text : List Char) (words : List (List Char))
    (h : text.take 1 = ['*']) : scanLinks parse text words = [] := by
  unfold scanLinks
  rw [List.filterMap_eq_nil_iff]
  intro word _
  exact scanWord_star parse text word h

/-- Filtering with a guard and rendering the survivors. -/
theorem filterMap_ite_eq_map_filter {α β : Type} (p : α → Bool) (f : α → β)
    (l : List α) :
    l.filterMap (fun a => if p a then some (f a) else none) =
      (l.filter p).map f := by
  induction l with
  | nil => rfl
  | cons a l ih =>
    rw [List.filterMap_cons, List.filter_cons]
    cases hp : p a with
    | false => simpa [hp] using ih
    | true => simpa [hp] using ih

/-- On a line whose text does not begin with '*', a word produces a
dispatch exactly when it qualifies, and it dispatches its rendering. -/
theorem scanWord_eq (parse : List Char → Option ParsedURL)
    (text : List Char) (word : List Char) (h : text.take 1 ≠ ['*']) :
    scanLinks.scanWord parse text word =
      if qualifiesLink parse word then some (linkRender parse word)
      else none := by
  unfold scanLinks.scanWord qualifiesLink linkRender
  cases hp : "http".toList.isPrefixOf word with
  | false => rfl
  | true =>
    cases hu : parse word with
    | none => rfl
    | some u =>
      show (if (!u.scheme.isEmpty && !u.host.isEmpty) = true
          then (if text.take 1 = ['*'] then none else some u.render)
          else none) =
        (if (!u.scheme.isEmpty && !u.host.isEmpty) = true
          then some u.render else none)
      rw [if_neg h]

/-- On a line whose text does not begin with '*', the URL scan dispatches
the rendering of every qualifying word, in order. -/
theorem scanLinks_eq_filter (parse : List Char → Option ParsedURL)
    (text : List Char) (words : List (List Char))
    (h : text.take 1 ≠ ['*']) :
    scanLinks parse text words =
      (words.filter (qualifiesLink parse)).map (linkRender parse) := by
  unfold scanLinks
  have hfun : scanLinks.scanWord parse text =
      fun word => if qualifiesLink parse word then
        some (linkRender parse word) else none :=
    funext fun word => scanWord_eq parse text word h
  rw [hfun, filterMap_ite_eq_map_filter]

/-- A retry run whose first success is the k-th attempt returns after
performing exactly the first k values of the backoff sequence. -/
theorem connectWithRetry_success (k : Nat) (connect : Nat → Bool) :
    ∀ (fuel a b : Nat), (∀ i, i < k → connect (a + i) = false) →
    connect (a + k) = true → k < fuel →
    connectWithRetry connect fuel a b = some (backoffSeq b k) := by
  induction k with
  | zero =>
    intro fuel a b _ hsucc hfuel
    cases fuel with
    | zero => omega
    | succ f =>
      have ha : connect a = true := by simpa using hsucc
      simp [connectWithRetry, ha, backoffSeq]
  | succ k ih =>
    intro fuel a b hfail hsucc hfuel
    cases fuel with
    | zero => omega
    | succ f =>
      have ha : connect a = false := by simpa using hfail 0 (Nat.succ_pos k)
      have hrec : connectWithRetry connect f (a + 1) (backoffStep b) =
          some (backoffSeq (backoffStep b) k) := by
        refine ih f (a + 1) (backoffStep b) ?_ ?_ (by omega)
        · intro i hi
          have := hfail (i + 1) (by omega)
          simpa [Nat.add_assoc, Nat.add_comm 1 i] using this
        · have := hsucc
          simpa [Nat.add_assoc, Nat.add_comm 1 k] using this
      simp [connectWithRetry, ha, hrec, backoffSeq]

/-- A retry run in which no attempt ever succeeds never returns. -/
theorem connectWithRetry_none (fuel : Nat) (connect : Nat → Bool) :
    ∀ (a b : Nat), (∀ i, connect i = false) →
    connectWithRetry connect fuel a b = none := by
  induction fuel with
  | zero => intro a b _; rfl
  | succ f ih =>
    intro a b hall
    simp [connectWithRetry, hall a, ih (a + 1) (backoffStep b) hall]

/-- One step of the backoff update preserves the doubling-capped form. -/
theorem backoffStep_min (j : Nat) :
    backoffStep (min (2 ^ j) 300) = min (2 ^ (j + 1)) 300 := by
  show (if 300 < min (2 ^ j) 300 * 2 then 300 else min (2 ^ j) 300 * 2) =
    min (2 ^ (j + 1)) 300
  rw [pow_succ]
  split <;> omega

/-- Starting from the j-th backoff value, the sequence is the doubling
sequence capped at 300. -/
theorem backoffSeq_min_pow (k : Nat) :
    ∀ j : Nat, backoffSeq (min (2 ^ j) 300) k =
      (List.range k).map (fun i => min (2 ^ (j + i)) 300) := by
  induction k with
  | zero => intro j; rfl
  | succ k ih =>
    intro j
    rw [List.range_succ_eq_map, List.map_cons, List.map_map]
    show min (2 ^ j) 300 :: backoffSeq (backoffStep (min (2 ^ j) 300)) k = _
    rw [backoffStep_min, ih (j + 1)]
    congr 1
    apply List.map_congr_left
    intro i _
    simp only [Function.comp_apply]
    have hidx : j + 1 + i = j + Nat.succ i := by omega
    rw [hidx]


/-- Claim C1 (amended): on a line that is not from the excluded sender,
has at least one word, is not classified as Command, and does not begin
with '*', the word scan dispatches a Link for EVERY whitespace-delimited
word that begins with "http" and parses as an absolute URL (non-empty
scheme and host), in line order, not only for the first such word. -/
theorem claim1_amended (parse : List Char → Option ParsedURL) (nick : String)
    (text : List Char)
    (hnick : nick ≠ "Sinkko")
    (hwords : goFields text ≠ [])
    (hcmd : ¬(text.take 1 = ['.'] ∧ 1 < text.length))
    (hstar : text.take 1 ≠ ['*']) :
    classify parse nick text =
      .links (((goFields text).filter (qualifiesLink parse)).map
        (linkRender parse)) := by
  simp only [classify]
  rw [if_neg hnick, if_neg (by simp [List.isEmpty_iff, hwords]),
    if_neg hcmd, scanLinks_eq_filter parse text _ hstar]

/-- Claim C1 counterexample: a line with two valid URLs dispatches both;
the second dispatched URL differs from the first, so the scan does not
stop at the first qualifying word as the claim states. -/
theorem claim1_counterexample :
    classify urlParseSpec "alice"
        "check this https://example.com/a out https://example.org/b".toList =
      Classification.links
        ["https://example.com/a".toList, "https://example.org/b".toList] ∧
    "https://example.org/b".toList ≠ "https://example.com/a".toList := by
  decide

/-- Witness for claim C1 (amended) at the two-URL line. -/
theorem claim1_amended_witness :
    classify urlParseSpec "alice"
        "check this https://example.com/a out https://example.org/b".toList =
      .links (((goFields
          "check this https://example.com/a out https://example.org/b".toList).filter
        (qualifiesLink urlParseSpec)).map (linkRender urlParseSpec)) :=
  claim1_amended urlParseSpec "alice"
    "check this https://example.com/a out https://example.org/b".toList
    (by decide) (by decide) (by decide) (by decide)

/-- Claim C2: a command-marker line whose remainder is white space only is
dispatched as a command (its text length exceeds 1), the empty-string
guard of handleCommand does not fire, and splitCommandString then panics
on fields[:1] over an empty slice, so handleCommand is not total. -/
theorem claim2_whitespace_panic (parse : List Char → Option ParsedURL)
    (nick : String) (ws : List Char)
    (hnick : nick ≠ "Sinkko") (hne : ws ≠ [])
    (hsp : ∀ c ∈ ws, goIsSpace c = true) :
    classify parse nick ('.' :: ws) = .command ws ∧
    splitCommandString ws = none ∧
    handleCommandPayload ws = .panic := by
  have hfields : goFields ws = [] := goFields_all_space ws hsp
  have hsplit : splitCommandString ws = none := by
    simp [splitCommandString, hfields]
  have hpay : handleCommandPayload ws = .panic := by
    unfold handleCommandPayload
    rw [if_neg (by simp [List.isEmpty_iff, hne]), hsplit]
  refine ⟨?_, hsplit, hpay⟩
  have hw : goFields ('.' :: ws) ≠ [] :=
    goFields_cons_ne_nil '.' ws (by decide)
  have hlen : 1 < ('.' :: ws).length := by
    have := List.length_pos.mpr hne
    simp only [List.length_cons]
    omega
  simp only [classify]
  rw [if_neg hnick, if_neg (by simp [List.isEmpty_iff, hw]),
    if_pos ⟨rfl, hlen⟩]
  rfl

/-- Witness for claim C2 at the line ". " (marker then one space). -/
theorem claim2_witness :
    classify urlParseSpec "alice" ('.' :: [' ']) = .command [' '] ∧
    splitCommandString [' '] = none ∧
    handleCommandPayload [' '] = .panic :=
  claim2_whitespace_panic urlParseSpec "alice" [' ']
    (by decide) (by decide) (by decide)

/-- Claim C3: a line (not from the excluded sender) whose text begins with
'.' and has length over 1 classifies as a Command, never reaching the URL
scan, and the handler payload has Command equal to the first token after
the marker and Args equal to the remaining tokens joined by single
spaces (empty when there are none). -/
theorem claim3_command (parse : List Char → Option ParsedURL) (nick : String)
    (text f : List Char) (rest : List (List Char))
    (hnick : nick ≠ "Sinkko")
    (hdot : text.take 1 = ['.'])
    (hlen : 1 < text.length)
    (hfields : goFields (text.drop 1) = f :: rest) :
    classify parse nick text = .command (text.drop 1) ∧
    handleCommandPayload (text.drop 1) = .payload f (goJoin rest) := by
  obtain ⟨t, rfl⟩ : ∃ t, text = '.' :: t := by
    cases text with
    | nil => simp at hdot
    | cons c t =>
      have hc : c = '.' := by simpa using hdot
      exact ⟨t, by rw [hc]⟩
  have ht : t ≠ [] := by
    intro hemp
    subst hemp
    simp at hlen
  have hf : goFields t = f :: rest := by simpa using hfields
  have hsplit : splitCommandString t = some ([f], rest) := by
    cases rest with
    | nil => simp [splitCommandString, hf]
    | cons f2 r2 =>
      have hlen2 : 1 < (goFields t).length := by
        rw [hf]
        simp only [List.length_cons]
        omega
      simp [splitCommandString, hf, hlen2]
  constructor
  · have hw : goFields ('.' :: t) ≠ [] :=
      goFields_cons_ne_nil '.' t (by decide)
    simp only [classify]
    rw [if_neg hnick, if_neg (by simp [List.isEmpty_iff, hw]),
      if_pos ⟨rfl, hlen⟩]
  · rw [show ('.' :: t).drop 1 = t from rfl]
    unfold handleCommandPayload
    rw [if_neg (by simp [List.isEmpty_iff, ht]), hsplit]
    rfl

/-- Witness for claim C3 at the spec example line. -/
theorem claim3_witness :
    classify urlParseSpec "alice" ".echo  hello   world".toList =
      .command "echo  hello   world".toList ∧
    handleCommandPayload "echo  hello   world".toList =
      .payload "echo".toList "hello world".toList :=
  claim3_command urlParseSpec "alice" ".echo  hello   world".toList
    "echo".toList ["hello".toList, "world".toList]
    (by decide) (by decide) (by decide) (by decide)

/-- Claim C4: when the first successful connect attempt is attempt k, the
retry loop returns success (its only return) after sleeping the intervals
min(2^i, 300) for i below k: starting at the 1 second base, doubling on
each consecutive failure, capped at 300 seconds.  When no attempt ever
succeeds it never returns, for any fuel bound: it retries indefinitely
and never surfaces an error. -/
theorem claim4_retry (connect : Nat → Bool) (k fuel : Nat)
    (hfail : ∀ i, i < k → connect i = false)
    (hsucc : connect k = true) (hfuel : k < fuel) :
    connectWithRetry connect fuel 0 1 =
      some ((List.range k).map (fun i => min (2 ^ i) 300)) ∧
    ∀ (other : Nat → Bool) (fu a b : Nat), (∀ i, other i = false) →
      connectWithRetry other fu a b = none := by
  constructor
  · have h1 : connectWithRetry connect fuel 0 1 = some (backoffSeq 1 k) :=
      connectWithRetry_success k connect fuel 0 1
        (by simpa using hfail) (by simpa using hsucc) hfuel
    rw [h1]
    have h2 : (1 : Nat) = min (2 ^ 0) 300 := by norm_num
    rw [h2, backoffSeq_min_pow k 0]
    simp
  · intro other fu a b hall
    exact connectWithRetry_none fu other a b hall

/-- Witness for claim C4: attempts 0 and 1 fail, attempt 2 succeeds; the
run sleeps 1 then 2 seconds and returns. -/
theorem claim4_witness :
    connectWithRetry (fun i => decide (2 ≤ i)) 10 0 1 =
      some ((List.range 2).map (fun i => min (2 ^ i) 300)) ∧
    ∀ (other : Nat → Bool) (fu a b : Nat), (∀ i, other i = false) →
      connectWithRetry other fu a b = none :=
  claim4_retry (fun i => decide (2 ≤ i)) 2 10
    (by intro i hi; simp only [decide_eq_false_iff_not]; omega)
    (by decide) (by decide)

/-- Claim C5: a gateway response with a non-empty errorMessage resolves to
a failure carrying that message, for both the command and the title
endpoint, even when the result or title field is also non-empty (the
error branch is checked first and returns the empty string in place of
the payload field). -/
theorem claim5_error_precedence (rc : CommandResponse) (tr : TitleResponse)
    (hc : rc.errorMessage ≠ "") (ht : tr.errorMessage ≠ "") :
    fetchLambdaCommand rc = .error rc.errorMessage ∧
    fetchLambdaTitle tr = .error tr.errorMessage := by
  constructor
  · simp [fetchLambdaCommand, hc]
  · simp [fetchLambdaTitle, ht]

/-- Witness for claim C5 at responses whose payload fields are non-empty
as well. -/
theorem claim5_witness :
    fetchLambdaCommand ⟨"the result", "boom"⟩ = .error "boom" ∧
    fetchLambdaTitle ⟨"the title", "bad"⟩ = .error "bad" :=
  claim5_error_precedence ⟨"the result", "boom"⟩ ⟨"the title", "bad"⟩
    (by decide) (by decide)

/-- Claim C6: a gateway response with both payload field and errorMessage
empty resolves to success with the empty string, not an error, and
neither handleCommand nor handleURL performs an outbound send on it. -/
theorem claim6_empty_success (channel : String) (rc : CommandResponse)
    (tr : TitleResponse) (h1 : rc.result = "") (h2 : rc.errorMessage = "")
    (h3 : tr.title = "") (h4 : tr.errorMessage = "") :
    fetchLambdaCommand rc = .ok "" ∧
    handleCommandSend channel (fetchLambdaCommand rc) = none ∧
    fetchLambdaTitle tr = .ok "" ∧
    handleURLSend channel (fetchLambdaTitle tr) = none := by
  have hc : fetchLambdaCommand rc = .ok "" := by
    simp [fetchLambdaCommand, h1, h2]
  have htl : fetchLambdaTitle tr = .ok "" := by
    simp [fetchLambdaTitle, h3, h4]
  refine ⟨hc, ?_, htl, ?_⟩
  · rw [hc]
    simp [handleCommandSend]
  · rw [htl]
    simp [handleURLSend]

/-- Witness for claim C6 at the all-empty response bodies. -/
theorem claim6_witness :
    fetchLambdaCommand ⟨"", ""⟩ = .ok "" ∧
    handleCommandSend "#chan" (fetchLambdaCommand ⟨"", ""⟩) = none ∧
    fetchLambdaTitle ⟨"", ""⟩ = .ok "" ∧
    handleURLSend "#chan" (fetchLambdaTitle ⟨"", ""⟩) = none :=
  claim6_empty_success "#chan" ⟨"", ""⟩ ⟨"", ""⟩ rfl rfl rfl rfl

/-- Claim C7: on a line whose full text begins with '*', the classifier
produces no handleURL dispatch, for every sender nick and every parse
function (so regardless of link validity). -/
theorem claim7_star_no_links (parse : List Char → Option ParsedURL)
    (nick : String) (text : List Char) (h : text.take 1 = ['*']) :
    linkDispatches (classify parse nick text) = [] := by
  simp only [classify]
  by_cases hnick : nick = "Sinkko"
  · rw [if_pos hnick]
    rfl
  · rw [if_neg hnick]
    by_cases hw : (goFields text).isEmpty = true
    · rw [if_pos hw]
      rfl
    · rw [if_neg hw]
      by_cases hc : text.take 1 = ['.'] ∧ 1 < text.length
      · exact absurd (h.symm.trans hc.1) (by decide)
      · rw [if_neg hc, scanLinks_star parse text _ h]
        rfl

/-- Witness for claim C7 at a relay-artifact line containing a valid URL. -/
theorem claim7_witness :
    linkDispatches
      (classify urlParseSpec "alice" "* see https://example.com".toList) = [] :=
  claim7_star_no_links urlParseSpec "alice" "* see https://example.com".toList
    (by decide)

/-- Claim C8: every line whose sender nick is the hard-coded exclusion
"Sinkko" is dropped before any command or link processing, whatever its
text and whatever the parse function. -/
theorem claim8_excluded_sender (parse : List Char → Option ParsedURL)
    (text : List Char) :
    classify parse "Sinkko" text = .ignored := by
  simp [classify]

/-- Claim C9: a successful title fetch with a non-empty title sends
exactly "Title: " followed by the title to the originating channel, and a
successful fetch with the empty title sends nothing. -/
theorem claim9_title_send (channel title : String) (h : title ≠ "") :
    handleURLSend channel (.ok title) = some (channel, "Title: " ++ title) ∧
    handleURLSend channel (.ok "") = none := by
  constructor
  · simp [handleURLSend, h]
  · simp [handleURLSend]

/-- Witness for claim C9 at a concrete channel and title. -/
theorem claim9_witness :
    handleURLSend "#chan" (.ok "Example Domain") =
      some ("#chan", "Title: " ++ "Example Domain") ∧
    handleURLSend "#chan" (.ok "") = none :=
  claim9_title_send "#chan" "Example Domain" (by decide)

/-- Claim C10: the nickname-collision handler always re-registers as the
configured nickname with exactly one "_" appended; it does not depend on
the nickname currently attempted, so a repeated collision reproduces the
same single-suffix name and no further avoidance happens. -/
theorem claim10_nick_suffix (cfg current other : String) :
    handle433 cfg current = cfg ++ "_" ∧
    (handle433 cfg current).toList = cfg.toList ++ ['_'] ∧
    handle433 cfg current = handle433 cfg other ∧
    handle433 cfg (handle433 cfg current) = cfg ++ "_" := by
  refine ⟨rfl, ?_, rfl, rfl⟩
  obtain ⟨l⟩ := cfg
  rfl
